import Mathlib

set_option maxRecDepth 40000

/-!
# MedFlow triage core — shallow embedding and verification

This file embeds the decision core of the MedFlow clinical-intake pipeline in
Lean 4 and proves (or refutes) the specification claims about it.

Embedded source files:
* `src/tools/triage_rules.py` — `check_red_flags`, the deterministic rule
  evaluator with the sticky emergency latch;
* `src/agents/clinical_triage.py` — `ClinicalTriageAgent.triage`, the hybrid
  stage that merges the rule result with the reasoning adapter's proposal;
* `src/memory/memory_store.py` — `MemoryStore.load`, absorption of read
  failures; and the defaulting of `last_triage_level` in
  `src/engine.py` (`MedFlowReasoningEngine.query`);
* `src/agents/workflow_automation.py` — SHA-256 integrity fingerprinting and
  the commit-time tamper check in `confirm_and_save`.

Python strings are modelled as Lean `String`; `str.lower()` / `str.strip()`
are modelled character-listwise (`pyLower`, `pyStrip`), which agrees with
Python on the ASCII inputs the rules operate on.  Python dicts whose shape is
fixed by the code are modelled as structures; JSON values handed to
`json.dumps` are modelled by the inductive `Json`.  Fallible external calls
(the Gemini adapter, GCS reads) are modelled as explicit `Except`/outcome
values, so that every catch-all `try/except` in the source becomes a visible
case split.
-/

/-! ## String primitives

Python's `in` operator on strings (substring test), `str.lower()` and
`str.strip()`, modelled over the character lists of Lean strings. -/

/-- `isPrefOf needle hay`: `needle` is a prefix of `hay` (character lists). -/
def isPrefOf : List Char → List Char → Bool
  | [], _ => true
  | _ :: _, [] => false
  | a :: as, b :: bs => a == b && isPrefOf as bs

/-- Python's substring operator `needle in hay`, on character lists:
some suffix of `hay` starts with `needle`. -/
def hasSub (needle : List Char) : List Char → Bool
  | [] => isPrefOf needle []
  | c :: rest => isPrefOf needle (c :: rest) || hasSub needle rest

/-- Python `str.lower()` (the rules only ever see ASCII, where
`Char.toLower` agrees with Python). -/
def pyLower (s : String) : String := ⟨s.data.map Char.toLower⟩

/-- Python `str.strip()`: remove leading and trailing whitespace. -/
def pyStrip (s : String) : String :=
  ⟨((s.data.dropWhile Char.isWhitespace).reverse.dropWhile
      Char.isWhitespace).reverse⟩

/-- `str(x).lower().strip()` — the normalization `check_red_flags` applies to
every incoming string field. -/
def normEntry (s : String) : String := pyStrip (pyLower s)

/-! ## `src/tools/triage_rules.py` -/

/-- The triage payload dict as consumed by `check_red_flags`.  `Option`
fields model `dict.get` with its default for possibly-missing keys; the list
fields default to `[]` when the key is missing, which coincides with the
empty list. -/
structure ClinicalInput where
  previous_priority : Option String
  red_flags : List String
  symptoms : List String
  risk_factors : List String
  severity : Option String
deriving Repr

/-- The fixed emergency keyword set of `check_red_flags` (a Python `set`;
only membership is ever used, so a list is an adequate model). -/
def emergency_keywords : List String :=
  ["chest pain", "shortness of breath", "sob", "difficulty breathing",
   "stroke", "facial drooping", "slurred speech", "unconscious",
   "seizure", "heavy bleeding", "suicidal ideation", "heart attack",
   "dizzy", "radiating pain", "arm pain", "confusion", "drooping"]

/-- The fixed high-risk group set of `check_red_flags`. -/
def high_risk_groups : List String :=
  ["diabetes", "heart disease", "elderly", "infant", "immunocompromised",
   "hypertension"]

/-- `check_red_flags` from `src/tools/triage_rules.py`:
1. normalize `previous_priority` (default `"routine"`); if it is
   `"emergency"`, return `"emergency"` (the sticky latch) before looking at
   any other field;
2. normalize the current fields (`severity` defaults to `"moderate"`);
3. if any red flag or symptom contains an emergency keyword as a substring,
   return `"emergency"`;
4. if severity is `"severe"`, or `"moderate"` with a high-risk factor,
   return `"urgent"`;
5. if severity is `"mild"` with no high-risk factor, return `"self-care"`;
   otherwise `"routine"`.
(The `print` debug statements of the source are side effects with no bearing
on the returned value and are not modelled.) -/
def check_red_flags (data : ClinicalInput) : String :=
  let previous_priority := normEntry (data.previous_priority.getD "routine")
  if previous_priority = "emergency" then "emergency"
  else
    let red_flags := data.red_flags.map normEntry
    let symptoms := data.symptoms.map normEntry
    let risk_factors := data.risk_factors.map normEntry
    let severity := normEntry (data.severity.getD "moderate")
    let all_indicators := red_flags ++ symptoms
    if all_indicators.any (fun indicator =>
        emergency_keywords.any (fun keyword =>
          hasSub keyword.data indicator.data)) then
      "emergency"
    else
      let is_high_risk :=
        risk_factors.any (fun risk => high_risk_groups.contains risk)
      if severity = "severe" || (severity = "moderate" && is_high_risk) then
        "urgent"
      else if severity = "mild" && !is_high_risk then "self-care"
      else "routine"

/-- The total order on priority levels from the spec,
`self-care < routine < urgent < emergency`, as a rank. -/
def levelRank : String → Nat
  | "routine" => 1
  | "urgent" => 2
  | "emergency" => 3
  | _ => 0

/-! ## `src/agents/clinical_triage.py` -/

/-- The schema-validated dict produced by the reasoning adapter and returned
by `ClinicalTriageAgent.triage` (`level`, `reasoning`, `action`, `questions`,
`confidence_score`; the score is a JSON number, modelled as `ℚ`). -/
structure TriageResult where
  level : String
  reasoning : String
  action : String
  questions : List String
  confidence_score : ℚ
deriving Repr

namespace ClinicalTriageAgent

/-- `ClinicalTriageAgent.triage`.  The Gemini call plus `json.loads` is
modelled by `adapterResponse : Except String TriageResult`: `.ok r` is a
successfully parsed schema-conforming reply, `.error e` is any exception
(with `str(e) = e`) raised inside the `try` block.  On success, when the
deterministic rule says `"emergency"` the result's level, reasoning, action
and questions are overridden (the final Python-level guardrail); otherwise
the adapter's dict is returned unchanged.  On failure, a fail-safe decision
is synthesized from the rule result (`rule_result if rule_result else
"emergency"`), with `confidence_score = 0.0`. -/
def triage (structured_input : ClinicalInput)
    (adapterResponse : Except String TriageResult) : TriageResult :=
  let rule_result := check_red_flags structured_input
  match adapterResponse with
  | .ok result =>
      if rule_result = "emergency" then
        { result with
          level := "emergency"
          reasoning := "EMERGENCY LATCH ACTIVE: " ++ result.reasoning
          action := "IMMEDIATE EMERGENCY ACTION REQUIRED: Call 911/EMS."
          questions := [] }
      else result
  | .error e =>
      { level := if check_red_flags structured_input = "" then "emergency"
                 else check_red_flags structured_input
        reasoning := "Fail-safe triggered: " ++ e
        action := "Seek immediate medical consultation."
        questions := ["Can you describe your symptoms in more detail?"]
        confidence_score := 0 }

end ClinicalTriageAgent

/-! ## `src/memory/memory_store.py` and the engine's state defaulting -/

/-- The observable state of the GCS interaction underlying one
`MemoryStore.load` call: whether `_ensure_bucket` succeeded, whether
`blob.exists()`, and the outcome of `download_as_text` + `json.loads`
(`.error` covers any exception raised inside the `try`, including one from
`blob.exists()` itself).  The stored session record is a flat JSON object of
string values, modelled as an association list. -/
structure GcsState where
  bucket_ok : Bool
  blob_exists : Bool
  download : Except String (List (String × String))

namespace MemoryStore

/-- `MemoryStore.load` from `src/memory/memory_store.py`: returns the empty
dict when the bucket is unavailable, the blob is missing, or any exception
occurs while reading/parsing; otherwise the parsed record. -/
def load (st : GcsState) : List (String × String) :=
  if !st.bucket_ok then []
  else if !st.blob_exists then []
  else match st.download with
    | .error _ => []
    | .ok record => record

end MemoryStore

/-- The engine's extraction of the prior priority from the loaded session
record (`src/engine.py`, `query` step 1):
`str(history.get("last_triage_level", "routine")).lower().strip()`. -/
def enginePrevPriority (history : List (String × String)) : String :=
  normEntry ((history.lookup "last_triage_level").getD "routine")

/-! ## SHA-256 (`hashlib.sha256(...).hexdigest()`)

A byte-level implementation of FIPS 180-4 SHA-256 over `List Nat` (each
element a byte), with 32-bit words as `Nat` reduced mod `2^32`.  Checked
against the standard test vectors (empty message and `"abc"`). -/

/-- Truncation to a 32-bit word. -/
def w32 (n : Nat) : Nat := n % 4294967296

/-- Right rotation of a 32-bit word. -/
def rotr (n x : Nat) : Nat := w32 ((x >>> n) ||| (x <<< (32 - n)))

/-- SHA-256 Σ₀. -/
def bigS0 (x : Nat) : Nat := rotr 2 x ^^^ rotr 13 x ^^^ rotr 22 x

/-- SHA-256 Σ₁. -/
def bigS1 (x : Nat) : Nat := rotr 6 x ^^^ rotr 11 x ^^^ rotr 25 x

/-- SHA-256 σ₀. -/
def smallS0 (x : Nat) : Nat := rotr 7 x ^^^ rotr 18 x ^^^ (x >>> 3)

/-- SHA-256 σ₁. -/
def smallS1 (x : Nat) : Nat := rotr 17 x ^^^ rotr 19 x ^^^ (x >>> 10)

/-- The 64 SHA-256 round constants of FIPS 180-4 (decimal). -/
def sha256K : List Nat :=
  [1116352408, 1899447441, 3049323471, 3921009573, 961987163, 1508970993,
   2453635748, 2870763221, 3624381080, 310598401, 607225278, 1426881987,
   1925078388, 2162078206, 2614888103, 3248222580, 3835390401, 4022224774,
   264347078, 604807628, 770255983, 1249150122, 1555081692, 1996064986,
   2554220882, 2821834349, 2952996808, 3210313671, 3336571891, 3584528711,
   113926993, 338241895, 666307205, 773529912, 1294757372, 1396182291,
   1695183700, 1986661051, 2177026350, 2456956037, 2730485921, 2820302411,
   3259730800, 3345764771, 3516065817, 3600352804, 4094571909, 275423344,
   430227734, 506948616, 659060556, 883997877, 958139571, 1322822218,
   1537002063, 1747873779, 1955562222, 2024104815, 2227730452, 2361852424,
   2428436474, 2756734187, 3204031479, 3329325298]

/-- The SHA-256 initial hash state of FIPS 180-4 (decimal). -/
def sha256H0 : List Nat :=
  [1779033703, 3144134277, 1013904242, 2773480762,
   1359893119, 2600822924, 528734635, 1541459225]

/-- SHA-256 padding: append `0x80`, zero bytes to 56 mod 64, then the bit
length as 8 big-endian bytes. -/
def sha256pad (msg : List Nat) : List Nat :=
  let len := msg.length
  let padZeros := (119 - len % 64) % 64
  msg ++ [0x80] ++ List.replicate padZeros 0 ++
    (List.range 8).map (fun i => ((8 * len) >>> (8 * (7 - i))) % 256)

/-- Big-endian packing of bytes into 32-bit words. -/
def bytesToWords (bytes : List Nat) : List Nat :=
  (List.range (bytes.length / 4)).map (fun i =>
    (bytes.getD (4 * i) 0) <<< 24 ||| (bytes.getD (4 * i + 1) 0) <<< 16 |||
    (bytes.getD (4 * i + 2) 0) <<< 8 ||| bytes.getD (4 * i + 3) 0)

/-- Split a word list into 16-word blocks. -/
def chunkWords (ws : List Nat) : List (List Nat) :=
  (List.range (ws.length / 16)).map (fun i => (ws.drop (16 * i)).take 16)

/-- The 64-entry SHA-256 message schedule of one block. -/
def sha256schedule (chunk : List Nat) : List Nat :=
  (List.range 64).foldl (fun w t =>
    if t < 16 then w ++ [chunk.getD t 0]
    else w ++ [w32 (w.getD (t - 16) 0 + smallS0 (w.getD (t - 15) 0) +
                    w.getD (t - 7) 0 + smallS1 (w.getD (t - 2) 0))]) []

/-- The SHA-256 compression function over one block. -/
def sha256compress (h : List Nat) (chunk : List Nat) : List Nat :=
  let w := sha256schedule chunk
  let final := (List.range 64).foldl (fun st t =>
    match st with
    | [a, b, c, d, e, f, g, hh] =>
        let ch := (e &&& f) ^^^ ((e ^^^ 0xffffffff) &&& g)
        let t1 := w32 (hh + bigS1 e + ch + sha256K.getD t 0 + w.getD t 0)
        let maj := (a &&& b) ^^^ (a &&& c) ^^^ (b &&& c)
        let t2 := w32 (bigS0 a + maj)
        [w32 (t1 + t2), a, b, c, w32 (d + t1), e, f, g]
    | st => st) h
  match h, final with
  | [h0, h1, h2, h3, h4, h5, h6, h7], [a, b, c, d, e, f, g, hh] =>
      [w32 (h0 + a), w32 (h1 + b), w32 (h2 + c), w32 (h3 + d),
       w32 (h4 + e), w32 (h5 + f), w32 (h6 + g), w32 (h7 + hh)]
  | _, _ => final

/-- The eight 32-bit words of the SHA-256 digest of a byte sequence. -/
def sha256words (msg : List Nat) : List Nat :=
  (chunkWords (bytesToWords (sha256pad msg))).foldl sha256compress sha256H0

/-- Lowercase hex digit. -/
def hexChar (n : Nat) : Char :=
  if n < 10 then Char.ofNat (48 + n) else Char.ofNat (87 + n)

/-- A 32-bit word as 8 lowercase hex digits. -/
def hex8 (n : Nat) : String :=
  ⟨(List.range 8).map (fun i => hexChar ((n >>> (4 * (7 - i))) % 16))⟩

/-- `hashlib.sha256(msg).hexdigest()`: the 64-character lowercase hex
digest. -/
def sha256hex (msg : List Nat) : String :=
  String.join ((sha256words msg).map hex8)

/-! ## JSON values and `json.dumps(..., sort_keys=True)`

`src/agents/workflow_automation.py` fingerprints
`json.dumps(data, sort_keys=True).encode()`.  `Json` models the Python
values involved (dicts as association lists in insertion order); `dumps`
models `json.dumps` with its default separators `", "` / `": "`,
`ensure_ascii=True` escaping, and `sort_keys=True` ordering dict items by
key (Python compares strings code point by code point). -/

/-- A JSON-serializable Python value.  Numbers are restricted to the
integers, which is all the determinism and commit-check arguments need. -/
inductive Json where
  | null
  | bool (b : Bool)
  | num (n : Int)
  | str (s : String)
  | arr (elems : List Json)
  | obj (fields : List (String × Json))

/-- Python string `<=`, code point by code point, on character lists. -/
def lexLe : List Char → List Char → Bool
  | [], _ => true
  | _ :: _, [] => false
  | a :: as, b :: bs =>
      if a.toNat = b.toNat then lexLe as bs else decide (a.toNat < b.toNat)

/-- Python string `<=` on strings. -/
def strLe (a b : String) : Bool := lexLe a.data b.data

/-- The key order `sort_keys=True` sorts dict items by. -/
def fieldLe (p q : String × Json) : Prop := strLe p.1 q.1 = true

instance : DecidableRel fieldLe :=
  fun p q => inferInstanceAs (Decidable (strLe p.1 q.1 = true))

/-- The strict key order on items with distinct keys (used to state that the
sorted item list of a dict is unique). -/
def fieldLt (p q : String × Json) : Prop := fieldLe p q ∧ p.1 ≠ q.1

/-- `sorted(fields)` by key, as `sort_keys=True` orders dict items.  Keys of
a Python dict are pairwise distinct, so any comparison sort computes the
same list; insertion sort is used here. -/
def sortFields (fields : List (String × Json)) : List (String × Json) :=
  List.insertionSort fieldLe fields

/-- A code point as a JSON `\uXXXX` escape. -/
def uEsc (n : Nat) : List Char :=
  ['\\', 'u'] ++ (List.range 4).map (fun i => hexChar ((n >>> (4 * (3 - i))) % 16))

/-- `json.dumps` escaping of one character (`ensure_ascii=True`): the short
escapes of the encoder's escape table, `\uXXXX` for other control or
non-ASCII characters (surrogate pairs beyond the BMP), the character itself
otherwise. -/
def escChar (c : Char) : List Char :=
  if c = '"' then ['\\', '"']
  else if c = '\\' then ['\\', '\\']
  else if c = '\n' then ['\\', 'n']
  else if c = '\r' then ['\\', 'r']
  else if c = '\t' then ['\\', 't']
  else if c.toNat = 8 then ['\\', 'b']
  else if c.toNat = 12 then ['\\', 'f']
  else if c.toNat < 32 || c.toNat > 126 then
    if c.toNat < 65536 then uEsc c.toNat
    else
      let v := c.toNat - 65536
      uEsc (55296 + v / 1024) ++ uEsc (56320 + v % 1024)
  else [c]

/-- `json.dumps` escaping of a whole string (without the quotes). -/
def jsonEscape (s : String) : String :=
  ⟨s.data.foldr (fun c acc => escChar c ++ acc) []⟩

/-- Join serialized items with the default item separator `", "`. -/
def joinComma (parts : List String) : String :=
  match parts with
  | [] => ""
  | p :: rest => rest.foldl (fun acc q => acc ++ ", " ++ q) p

/-- Fuel-indexed body of `dumps`; the fuel bounds the nesting depth. -/
def dumpsF : Nat → Json → String
  | 0, _ => ""
  | fuel + 1, j =>
    match j with
    | .null => "null"
    | .bool b => if b then "true" else "false"
    | .num n => toString n
    | .str s => "\"" ++ jsonEscape s ++ "\""
    | .arr elems =>
        "[" ++ joinComma (elems.map (fun e => dumpsF fuel e)) ++ "]"
    | .obj fields =>
        "\x7b" ++ joinComma ((sortFields fields).map (fun p =>
          "\"" ++ jsonEscape p.1 ++ "\": " ++ dumpsF fuel p.2)) ++ "\x7d"

/-- Python's default recursion limit: `json.dumps` raises `RecursionError`
on values nested deeper than this, so no value the source can serialize
exhausts it as the fuel of `dumpsF`. -/
def recursionLimit : Nat := 1000

/-- `json.dumps(j, sort_keys=True)`. -/
def dumps (j : Json) : String := dumpsF recursionLimit j

/-- UTF-8 encoding of one character (Python `str.encode()`). -/
def utf8Bytes (c : Char) : List Nat :=
  let n := c.toNat
  if n < 128 then [n]
  else if n < 2048 then [192 ||| (n >>> 6), 128 ||| (n &&& 63)]
  else if n < 65536 then
    [224 ||| (n >>> 12), 128 ||| ((n >>> 6) &&& 63), 128 ||| (n &&& 63)]
  else
    [240 ||| (n >>> 18), 128 ||| ((n >>> 12) &&& 63),
     128 ||| ((n >>> 6) &&& 63), 128 ||| (n &&& 63)]

/-- Python `str.encode()`: the UTF-8 bytes of a string. -/
def strBytes (s : String) : List Nat :=
  s.data.foldr (fun c acc => utf8Bytes c ++ acc) []

/-! ## `src/agents/workflow_automation.py` -/

namespace WorkflowAutomationAgent

/-- `WorkflowAutomationAgent._generate_integrity_hash`:
`hashlib.sha256(json.dumps(data, sort_keys=True).encode()).hexdigest()`. -/
def generate_integrity_hash (data : Json) : String :=
  sha256hex (strBytes (dumps data))

/-- The `payload` dict built by `prepare_case`: fixed metadata plus the
clinical content `{patient, triage, summary}`. -/
structure CasePayload where
  metadata : Json
  clinical_data : Json

/-- The dict returned by `prepare_case` and passed to `confirm_and_save`. -/
structure PreparedCase where
  status : String
  message : String
  payload : CasePayload
  integrity_hash : String

/-- The record `confirm_and_save` hands to `EHRStore.save_case`: the payload
plus `consent_captured` and `integrity_hash`. -/
structure FinalRecord where
  payload : CasePayload
  consent_captured : Bool
  integrity_hash : String

/-- The dict returned by `confirm_and_save` (`case_id` only present in the
`"saved"` outcome). -/
structure SaveOutcome where
  status : String
  message : String
  case_id : Option String
deriving Repr

/-- The effects outside `confirm_and_save`'s control: the fresh
`uuid4().hex[:8].upper()` suffix drawn inside `EHRStore.save_case`, and the
outcome of the BigQuery insert (`some msg` = an exception with message `msg`
was raised, caught by `confirm_and_save`'s `except`). -/
structure SaveEnv where
  case_id_suffix : String
  insert_error : Option String
deriving Repr

/-- `WorkflowAutomationAgent.prepare_case` (timestamp and app version passed
in as the ambient values the source reads from the clock/environment). -/
def prepare_case (app_version timestamp : String)
    (patient_data triage_data summary_data : Json) : PreparedCase :=
  let clinical_content : Json :=
    Json.obj [("patient", patient_data), ("triage", triage_data),
              ("summary", summary_data)]
  { status := "pending_consent"
    message := "Clinical case ready for EHR upload."
    payload :=
      { metadata := Json.obj [("version", Json.str app_version),
                              ("timestamp", Json.str timestamp),
                              ("source", Json.str "MedFlow-ADK-Engine")]
        clinical_data := clinical_content }
    integrity_hash := generate_integrity_hash clinical_content }

/-- `WorkflowAutomationAgent.confirm_and_save`, returning the outcome dict
together with the resulting case-store contents (the BigQuery table rows,
modelled as the list of committed records):
1. without consent: `"cancelled"`, nothing written;
2. recompute the integrity hash of `payload.clinical_data` and compare with
   the stored `integrity_hash`; on mismatch: `"security_error"`, nothing
   written;
3. otherwise attempt `EHRStore.save_case` on the final record: on success
   append the record and return `"saved"` with the case id, on an insert
   exception return `"failed"` with nothing written (the insert raised
   before any row became visible). -/
def confirm_and_save (env : SaveEnv) (ehr : List FinalRecord)
    (prepared_case : PreparedCase) (consent : Bool) :
    SaveOutcome × List FinalRecord :=
  if !consent then
    ({ status := "cancelled", message := "Consent withheld. Case purged.",
       case_id := none }, ehr)
  else
    let current_hash := generate_integrity_hash prepared_case.payload.clinical_data
    if current_hash ≠ prepared_case.integrity_hash then
      ({ status := "security_error",
         message :=
           "Data integrity mismatch. Potential unauthorized modification detected.",
         case_id := none }, ehr)
    else
      let final_record : FinalRecord :=
        { payload := prepared_case.payload
          consent_captured := true
          integrity_hash := prepared_case.integrity_hash }
      match env.insert_error with
      | none =>
          let case_id := "CASE-" ++ env.case_id_suffix
          ({ status := "saved",
             message := "Successfully committed to BigQuery archive.",
             case_id := some case_id }, ehr ++ [final_record])
      | some e =>
          ({ status := "failed", message := "Cloud Storage Error: " ++ e,
             case_id := none }, ehr)

end WorkflowAutomationAgent

/-! ## Embedding sanity checks

The spec's concrete scenarios (§8) and the standard SHA-256 test vectors,
evaluated on the embedded definitions. -/

example : check_red_flags ⟨some "routine", [], ["mild headache"], [], some "mild"⟩
    = "self-care" := by decide

example : check_red_flags ⟨some "routine", [], ["severe chest pain"], [], some "severe"⟩
    = "emergency" := by decide

example : check_red_flags ⟨some "emergency", [], ["itchy toe"], [], some "mild"⟩
    = "emergency" := by decide

example : check_red_flags ⟨some "routine", [], [], ["diabetes"], some "moderate"⟩
    = "urgent" := by decide

example : sha256hex [] =
    "e3b0c44298fc1c149afbf4c8996fb92427ae41e4649b934ca495991b7852b855" := by decide

example : sha256hex [97, 98, 99] =
    "ba7816bf8f01cfea414140de5dae2223b00361a396177a9cb410ff61f20015ad" := by decide

example : dumps (Json.obj [("b", Json.num 1), ("a", Json.str "x")]) =
    "\x7b\"a\": \"x\", \"b\": 1\x7d" := by decide

/-! ## Shared lemmas about `check_red_flags` -/

/-- The sticky latch: a normalized prior of `"emergency"` short-circuits the
evaluator. -/
theorem latch_emergency (data : ClinicalInput)
    (h : normEntry (data.previous_priority.getD "routine") = "emergency") :
    check_red_flags data = "emergency" := by
  unfold check_red_flags
  simp [h]

/-- `check_red_flags` only ever returns one of the four priority levels. -/
theorem check_red_flags_cases (data : ClinicalInput) :
    check_red_flags data = "emergency" ∨ check_red_flags data = "urgent" ∨
    check_red_flags data = "self-care" ∨ check_red_flags data = "routine" := by
  simp only [check_red_flags]
  split_ifs <;> simp

/-- `check_red_flags` never returns the empty string. -/
theorem check_red_flags_ne_empty (data : ClinicalInput) :
    check_red_flags data ≠ "" := by
  rcases check_red_flags_cases data with h | h | h | h <;> simp [h]

/-! ## Claim C1 -/

/-- C1: for every clinical-signal input whose (normalized) prior priority
level is `"emergency"`, `check_red_flags` returns `"emergency"`, whatever
the new message's symptoms, red flags, risk factors and severity are — a
latched emergency is never downgraded by a milder-looking turn. -/
theorem check_red_flags_latch_immediate (data : ClinicalInput)
    (h : normEntry (data.previous_priority.getD "routine") = "emergency") :
    check_red_flags data = "emergency" :=
  latch_emergency data h

/-- Witness for C1 at a concrete latched input with mild new symptoms. -/
theorem check_red_flags_latch_immediate_witness :
    normEntry ((some " EMERGENCY " : Option String).getD "routine") = "emergency" ∧
    check_red_flags ⟨some " EMERGENCY ", ["nothing serious"], ["mild cough"], [],
      some "mild"⟩ = "emergency" :=
  ⟨by decide,
   check_red_flags_latch_immediate
     ⟨some " EMERGENCY ", ["nothing serious"], ["mild cough"], [], some "mild"⟩
     (by decide)⟩

/-! ## Claim C2 -/

/-- C2 counterexample: with prior level `"urgent"` and a new input with no
symptoms, red flags or risk factors and missing severity, `check_red_flags`
returns `"routine"` — strictly below the prior level, refuting
`result ≥ priorLevel` for non-emergency priors. -/
theorem latch_monotonicity_counterexample :
    ¬ levelRank (check_red_flags ⟨some "urgent", [], [], [], none⟩) ≥
        levelRank "urgent" := by decide

/-- C2 amended: the guarantee `result ≥ priorLevel` holds when the prior
level is `"emergency"` (the latch); for lower priors the evaluator ignores
the prior level entirely and provides no lower bound. -/
theorem latch_monotonicity_amended (data : ClinicalInput)
    (h : normEntry (data.previous_priority.getD "routine") = "emergency") :
    levelRank (check_red_flags data) ≥
      levelRank (normEntry (data.previous_priority.getD "routine")) := by
  rw [latch_emergency data h, h]

/-- Witness for the amended C2 at a concrete latched input. -/
theorem latch_monotonicity_amended_witness :
    normEntry ((some "emergency" : Option String).getD "routine") = "emergency" ∧
    levelRank (check_red_flags ⟨some "emergency", [], ["cough"], [], some "mild"⟩) ≥
      levelRank (normEntry ((some "emergency" : Option String).getD "routine")) :=
  ⟨by decide,
   latch_monotonicity_amended ⟨some "emergency", [], ["cough"], [], some "mild"⟩
     (by decide)⟩

/-! ## Claim C10 -/

/-- C10: `check_red_flags` lowercases and trims the incoming prior string
before the latch comparison: every prior whose normalized form is
`"emergency"` triggers the latch, and every other prior string — as well as
a missing field — produces exactly the result obtained with prior
`"routine"` (the evaluator is a total function, so no value can make it
fail). -/
theorem prior_normalization_cases (data : ClinicalInput) (p : String) :
    (normEntry p = "emergency" →
      check_red_flags { data with previous_priority := some p } = "emergency") ∧
    (normEntry p ≠ "emergency" →
      check_red_flags { data with previous_priority := some p } =
        check_red_flags { data with previous_priority := some "routine" } ∧
      check_red_flags { data with previous_priority := none } =
        check_red_flags { data with previous_priority := some "routine" }) := by
  constructor
  · intro h
    exact latch_emergency _ (by simpa using h)
  · intro h
    constructor
    · simp only [check_red_flags, Option.getD_some]
      rw [if_neg h, if_neg (by decide : ¬ (normEntry "routine" = "emergency"))]
    · simp only [check_red_flags, Option.getD_some, Option.getD_none]

/-- Witness for C10: a prior normalizing to `"emergency"` latches; a corrupt
prior behaves exactly like `"routine"`. -/
theorem prior_normalization_cases_witness :
    (normEntry " Emergency " = "emergency" ∧
     check_red_flags ⟨some " Emergency ", [], [], [], some "severe"⟩ = "emergency") ∧
    (normEntry "URGENT!?" ≠ "emergency" ∧
     check_red_flags ⟨some "URGENT!?", [], [], [], some "severe"⟩ =
       check_red_flags ⟨some "routine", [], [], [], some "severe"⟩) :=
  ⟨⟨by decide,
    (prior_normalization_cases ⟨none, [], [], [], some "severe"⟩ " Emergency ").1
      (by decide)⟩,
   ⟨by decide,
    ((prior_normalization_cases ⟨none, [], [], [], some "severe"⟩ "URGENT!?").2
      (by decide)).1⟩⟩

/-! ## Claim C3 -/

/-- C3 counterexample: the rule level is `"urgent"` (severity `"severe"`),
the adapter proposes `"routine"`, and `triage` returns the proposal
unchanged — level strictly below the rule level and reasoning without any
override note.  The floor is only enforced when the rule level is
`"emergency"`. -/
theorem floor_override_counterexample :
    check_red_flags ⟨none, [], [], [], some "severe"⟩ = "urgent" ∧
    levelRank (ClinicalTriageAgent.triage ⟨none, [], [], [], some "severe"⟩
        (.ok ⟨"routine", "adapter reasoning", "rest at home", [], 1⟩)).level <
      levelRank (check_red_flags ⟨none, [], [], [], some "severe"⟩) ∧
    (ClinicalTriageAgent.triage ⟨none, [], [], [], some "severe"⟩
        (.ok ⟨"routine", "adapter reasoning", "rest at home", [], 1⟩)).reasoning =
      "adapter reasoning" := by
  refine ⟨by decide, ?_, ?_⟩ <;>
    simp [ClinicalTriageAgent.triage, show check_red_flags ⟨none, [], [], [], some "severe"⟩ = "urgent" from by decide]
  decide

/-- C3 amended: the only floor `triage` enforces is the emergency latch.
When the rule level is not `"emergency"`, the adapter's proposal is returned
completely unchanged — even when its level is strictly lower than the rule
level, and with no override note. -/
theorem floor_override_amended (inp : ClinicalInput) (res : TriageResult)
    (h : check_red_flags inp ≠ "emergency") :
    ClinicalTriageAgent.triage inp (.ok res) = res := by
  unfold ClinicalTriageAgent.triage
  simp [h]

/-- Witness for the amended C3: a `"urgent"` rule level with a `"routine"`
proposal is passed through unchanged. -/
theorem floor_override_amended_witness :
    check_red_flags ⟨none, [], [], [], some "severe"⟩ ≠ "emergency" ∧
    ClinicalTriageAgent.triage ⟨none, [], [], [], some "severe"⟩
        (.ok ⟨"routine", "adapter reasoning", "rest at home", [], 1⟩) =
      ⟨"routine", "adapter reasoning", "rest at home", [], 1⟩ :=
  ⟨by decide,
   floor_override_amended ⟨none, [], [], [], some "severe"⟩
     ⟨"routine", "adapter reasoning", "rest at home", [], 1⟩ (by decide)⟩

/-! ## Claim C4 -/

/-- C4: whenever the reasoning-adapter call fails (any exception `e`, which
covers timeouts and unparseable output), `triage` returns the well-formed
fail-safe decision: level equal to the deterministic rule result, a
fail-safe reasoning referencing the failure, the fixed consultation action,
and confidence score `0.0` — the failure is absorbed, never propagated. -/
theorem triage_failsafe_decision (inp : ClinicalInput) (e : String) :
    ClinicalTriageAgent.triage inp (.error e) =
      { level := check_red_flags inp
        reasoning := "Fail-safe triggered: " ++ e
        action := "Seek immediate medical consultation."
        questions := ["Can you describe your symptoms in more detail?"]
        confidence_score := 0 } := by
  unfold ClinicalTriageAgent.triage
  simp [check_red_flags_ne_empty inp]

/-! ## Claim C7 -/

/-- C7: when the rule result is `"emergency"` and the adapter call succeeds,
`triage` forces the level to `"emergency"`, prefixes the latch-active
annotation to the adapter's own reasoning (preserving it as a suffix), and
rewrites the action to the fixed immediate-emergency instruction (the
questions are also cleared). -/
theorem emergency_reconcile_override (inp : ClinicalInput) (res : TriageResult)
    (h : check_red_flags inp = "emergency") :
    ClinicalTriageAgent.triage inp (.ok res) =
      { res with
        level := "emergency"
        reasoning := "EMERGENCY LATCH ACTIVE: " ++ res.reasoning
        action := "IMMEDIATE EMERGENCY ACTION REQUIRED: Call 911/EMS."
        questions := [] } := by
  unfold ClinicalTriageAgent.triage
  simp [h]

/-- Witness for C7 at a latched input and a concrete adapter proposal. -/
theorem emergency_reconcile_override_witness :
    check_red_flags ⟨some "emergency", [], ["cough"], [], some "mild"⟩ = "emergency" ∧
    ClinicalTriageAgent.triage ⟨some "emergency", [], ["cough"], [], some "mild"⟩
        (.ok ⟨"routine", "sounds mild", "rest at home", ["any fever?"], 1⟩) =
      ⟨"emergency", "EMERGENCY LATCH ACTIVE: sounds mild",
       "IMMEDIATE EMERGENCY ACTION REQUIRED: Call 911/EMS.", [], 1⟩ :=
  ⟨by decide,
   emergency_reconcile_override ⟨some "emergency", [], ["cough"], [], some "mild"⟩
     ⟨"routine", "sounds mild", "rest at home", ["any fever?"], 1⟩ (by decide)⟩

/-! ## Claim C5 -/

/-- C5: if any symptom or red flag contains an emergency keyword as a
substring of its normalized (lowercased, trimmed) form, `check_red_flags`
returns `"emergency"`; and with no symptoms and no red flags (and no latched
prior) the result is never `"emergency"` — empty sets cannot trigger the
keyword rule. -/
theorem keyword_emergency_soundness (data : ClinicalInput) :
    ((∃ s ∈ data.symptoms ++ data.red_flags, ∃ kw ∈ emergency_keywords,
        hasSub kw.data (normEntry s).data = true) →
      check_red_flags data = "emergency") ∧
    (data.symptoms = [] → data.red_flags = [] →
      normEntry (data.previous_priority.getD "routine") ≠ "emergency" →
      check_red_flags data ≠ "emergency") := by
  constructor
  · rintro ⟨s, hs, kw, hkw, hsub⟩
    have hany : ((data.red_flags.map normEntry ++ data.symptoms.map normEntry).any
        (fun indicator => emergency_keywords.any (fun keyword =>
          hasSub keyword.data indicator.data))) = true := by
      rw [List.any_eq_true]
      refine ⟨normEntry s, ?_, ?_⟩
      · rw [List.mem_append] at hs ⊢
        rcases hs with h | h
        · exact Or.inr (List.mem_map_of_mem _ h)
        · exact Or.inl (List.mem_map_of_mem _ h)
      · rw [List.any_eq_true]
        exact ⟨kw, hkw, hsub⟩
    simp only [check_red_flags]
    split_ifs <;> simp_all
  · intro hsym hrf hprior
    simp only [check_red_flags, hsym, hrf]
    split_ifs with h1 h2 h3 h4 <;> simp_all

/-- Witness for C5: `"Sudden Sharp Chest Pain"` contains the keyword
`"chest pain"` after normalization, so the evaluator latches a new
emergency. -/
theorem keyword_emergency_soundness_witness :
    (∃ s ∈ (⟨none, [], ["Sudden Sharp Chest Pain"], [], some "mild"⟩ :
        ClinicalInput).symptoms ++ (⟨none, [], ["Sudden Sharp Chest Pain"], [],
        some "mild"⟩ : ClinicalInput).red_flags,
      ∃ kw ∈ emergency_keywords, hasSub kw.data (normEntry s).data = true) ∧
    check_red_flags ⟨none, [], ["Sudden Sharp Chest Pain"], [], some "mild"⟩ =
      "emergency" :=
  ⟨by decide,
   (keyword_emergency_soundness
     ⟨none, [], ["Sudden Sharp Chest Pain"], [], some "mild"⟩).1 (by decide)⟩

/-! ## Claim C6 -/

/-- C6 counterexample: severity exactly `"unknown"` with the high-risk
factor `"diabetes"`, no latched prior and no keyword hit yields
`"routine"`, not the claimed `"urgent"` — the string `"unknown"` is not
treated like `"moderate"`; only a *missing* severity defaults to
`"moderate"`. -/
theorem unknown_severity_counterexample :
    check_red_flags ⟨none, [], [], ["diabetes"], some "unknown"⟩ = "routine" ∧
    ("routine" : String) ≠ "urgent" :=
  ⟨by decide, by decide⟩

/-- C6 amended: with a high-risk factor, no keyword hit and no latched
prior, a *missing* severity defaults to `"moderate"` and escalates to
`"urgent"`, but the explicit severity string `"unknown"` fails both the
urgent-escalation and the mild test and yields `"routine"`. -/
theorem unknown_severity_amended (data : ClinicalInput)
    (hprior : normEntry (data.previous_priority.getD "routine") ≠ "emergency")
    (hkw : ((data.red_flags.map normEntry ++ data.symptoms.map normEntry).any
        (fun indicator => emergency_keywords.any (fun keyword =>
          hasSub keyword.data indicator.data))) = false)
    (hrisk : ((data.risk_factors.map normEntry).any
        (fun risk => high_risk_groups.contains risk)) = true) :
    (data.severity = none → check_red_flags data = "urgent") ∧
    (data.severity = some "unknown" → check_red_flags data = "routine") := by
  constructor
  · intro hsev
    simp only [check_red_flags, hsev, Option.getD_none]
    rw [if_neg hprior]
    simp only [hkw, hrisk]
    decide
  · intro hsev
    simp only [check_red_flags, hsev, Option.getD_some]
    rw [if_neg hprior]
    simp only [hkw, hrisk]
    decide

/-- Witness for the amended C6 with the risk factor `"diabetes"`. -/
theorem unknown_severity_amended_witness :
    normEntry ((none : Option String).getD "routine") ≠ "emergency" ∧
    (((["diabetes"] : List String).map normEntry).any
        (fun risk => high_risk_groups.contains risk)) = true ∧
    check_red_flags ⟨none, [], [], ["diabetes"], none⟩ = "urgent" ∧
    check_red_flags ⟨none, [], [], ["diabetes"], some "unknown"⟩ = "routine" :=
  ⟨by decide, by decide,
   (unknown_severity_amended ⟨none, [], [], ["diabetes"], none⟩
     (by decide) (by decide) (by decide)).1 rfl,
   (unknown_severity_amended ⟨none, [], [], ["diabetes"], some "unknown"⟩
     (by decide) (by decide) (by decide)).2 rfl⟩

/-! ## Claim C8 -/

/-- C8: when the bucket is unavailable, the session blob does not exist, or
the read/parse raises, `MemoryStore.load` returns the empty record, and the
engine's defaulting then yields the prior priority `"routine"` — storage
failures are absorbed, never propagated. -/
theorem load_default_routine (st : GcsState)
    (h : st.bucket_ok = false ∨ st.blob_exists = false ∨
      ∃ e, st.download = .error e) :
    MemoryStore.load st = [] ∧
    enginePrevPriority (MemoryStore.load st) = "routine" := by
  have hload : MemoryStore.load st = [] := by
    obtain ⟨b, ex, dl⟩ := st
    rcases h with h | h | ⟨e, h⟩
    · subst h; simp [MemoryStore.load]
    · subst h; cases b <;> simp [MemoryStore.load]
    · subst h; cases b <;> cases ex <;> simp [MemoryStore.load]
  exact ⟨hload, by rw [hload]; decide⟩

/-- Witness for C8: a missing session blob (even with well-formed stored
bytes behind it) loads as the empty record and defaults to `"routine"`. -/
theorem load_default_routine_witness :
    ((⟨true, false, .ok [("last_triage_level", "emergency")]⟩ :
        GcsState).bucket_ok = false ∨
     (⟨true, false, .ok [("last_triage_level", "emergency")]⟩ :
        GcsState).blob_exists = false ∨
     ∃ e, (⟨true, false, .ok [("last_triage_level", "emergency")]⟩ :
        GcsState).download = .error e) ∧
    MemoryStore.load ⟨true, false, .ok [("last_triage_level", "emergency")]⟩ = [] ∧
    enginePrevPriority
      (MemoryStore.load ⟨true, false, .ok [("last_triage_level", "emergency")]⟩) =
      "routine" :=
  ⟨Or.inr (Or.inl rfl),
   (load_default_routine ⟨true, false, .ok [("last_triage_level", "emergency")]⟩
     (Or.inr (Or.inl rfl))).1,
   (load_default_routine ⟨true, false, .ok [("last_triage_level", "emergency")]⟩
     (Or.inr (Or.inl rfl))).2⟩

/-! ## Order lemmas for the key sort of `sort_keys=True` -/

/-- `lexLe` is total. -/
theorem lexLe_total (as : List Char) : ∀ bs, lexLe as bs = true ∨ lexLe bs as = true := by
  induction as with
  | nil => intro bs; left; rfl
  | cons a as ih =>
    intro bs
    cases bs with
    | nil => right; rfl
    | cons b bs =>
      simp only [lexLe]
      by_cases hab : a.toNat = b.toNat
      · rw [if_pos hab, if_pos hab.symm]
        exact ih bs
      · rw [if_neg hab, if_neg (fun h => hab h.symm)]
        simp only [decide_eq_true_eq]
        omega

/-- `lexLe` is transitive. -/
theorem lexLe_trans (as : List Char) :
    ∀ bs cs, lexLe as bs = true → lexLe bs cs = true → lexLe as cs = true := by
  induction as with
  | nil => intro bs cs _ _; rfl
  | cons a as ih =>
    intro bs cs h1 h2
    cases bs with
    | nil => simp [lexLe] at h1
    | cons b bs =>
      cases cs with
      | nil => simp [lexLe] at h2
      | cons c cs =>
        simp only [lexLe] at h1 h2 ⊢
        by_cases hab : a.toNat = b.toNat
        · rw [if_pos hab] at h1
          by_cases hbc : b.toNat = c.toNat
          · rw [if_pos hbc] at h2
            rw [if_pos (by omega : a.toNat = c.toNat)]
            exact ih bs cs h1 h2
          · rw [if_neg hbc] at h2
            simp only [decide_eq_true_eq] at h2
            rw [if_neg (by omega : ¬ a.toNat = c.toNat)]
            simp only [decide_eq_true_eq]
            omega
        · rw [if_neg hab] at h1
          simp only [decide_eq_true_eq] at h1
          by_cases hbc : b.toNat = c.toNat
          · rw [if_neg (by omega : ¬ a.toNat = c.toNat)]
            simp only [decide_eq_true_eq]
            omega
          · rw [if_neg hbc] at h2
            simp only [decide_eq_true_eq] at h2
            rw [if_neg (by omega : ¬ a.toNat = c.toNat)]
            simp only [decide_eq_true_eq]
            omega

/-- `lexLe` is antisymmetric. -/
theorem lexLe_antisymm (as : List Char) :
    ∀ bs, lexLe as bs = true → lexLe bs as = true → as = bs := by
  induction as with
  | nil =>
    intro bs h1 h2
    cases bs with
    | nil => rfl
    | cons b bs => simp [lexLe] at h2
  | cons a as ih =>
    intro bs h1 h2
    cases bs with
    | nil => simp [lexLe] at h1
    | cons b bs =>
      simp only [lexLe] at h1 h2
      by_cases hab : a.toNat = b.toNat
      · rw [if_pos hab] at h1
        rw [if_pos hab.symm] at h2
        have hval : a = b := Char.ext (UInt32.ext hab)
        rw [hval, ih bs h1 h2]
      · rw [if_neg hab] at h1
        rw [if_neg (fun h => hab h.symm)] at h2
        simp only [decide_eq_true_eq] at h1 h2
        omega

instance : IsTotal (String × Json) fieldLe :=
  ⟨fun p q => lexLe_total p.1.data q.1.data⟩

instance : IsTrans (String × Json) fieldLe :=
  ⟨fun p q r h1 h2 => lexLe_trans p.1.data q.1.data r.1.data h1 h2⟩

instance : IsAntisymm (String × Json) fieldLt :=
  ⟨fun p q h1 h2 =>
    absurd (String.ext (lexLe_antisymm p.1.data q.1.data h1.1 h2.1)) h1.2⟩

/-- Two permutations of one item list with pairwise-distinct keys sort to
the same list — `json.dumps(..., sort_keys=True)` sees one canonical item
order per dict. -/
theorem sortFields_eq_of_perm (f₁ f₂ : List (String × Json))
    (hperm : f₁.Perm f₂)
    (hnd : List.Pairwise (fun p q : String × Json => p.1 ≠ q.1) f₁) :
    sortFields f₁ = sortFields f₂ := by
  have p₁ := List.perm_insertionSort fieldLe f₁
  have p₂ := List.perm_insertionSort fieldLe f₂
  have s₁ := List.sorted_insertionSort fieldLe f₁
  have s₂ := List.sorted_insertionSort fieldLe f₂
  have hsym : ∀ {p q : String × Json}, p.1 ≠ q.1 → q.1 ≠ p.1 :=
    fun h => fun h2 => h h2.symm
  have hnd₁ : List.Pairwise (fun p q : String × Json => p.1 ≠ q.1)
      (sortFields f₁) := hnd.perm p₁.symm hsym
  have hnd₂ : List.Pairwise (fun p q : String × Json => p.1 ≠ q.1)
      (sortFields f₂) := (hnd.perm hperm hsym).perm p₂.symm hsym
  refine List.eq_of_perm_of_sorted (r := fieldLt)
    (p₁.trans (hperm.trans p₂.symm)) ?_ ?_
  · exact (s₁.and hnd₁).imp (fun h => ⟨h.1, h.2⟩)
  · exact (s₂.and hnd₂).imp (fun h => ⟨h.1, h.2⟩)

/-- One unfolding step of the serializer at an object node. -/
theorem dumpsF_obj (fuel : Nat) (fs : List (String × Json)) :
    dumpsF (fuel + 1) (Json.obj fs) =
      "\x7b" ++ joinComma ((sortFields fs).map (fun p =>
        "\"" ++ jsonEscape p.1 ++ "\": " ++ dumpsF fuel p.2)) ++ "\x7d" := rfl

/-! ## Claim C9 -/

open WorkflowAutomationAgent in
/-- C9: `confirm_and_save` recomputes the SHA-256 fingerprint of the
prepared case's clinical content before committing; on any mismatch with
the stored `integrity_hash` it returns the `"security_error"` status and
writes nothing to the case store.  And the fingerprint is deterministic
over equal clinical content: permuting the items of a dict (whose keys are
distinct) leaves the hash unchanged, because items are sorted by key before
hashing. -/
theorem integrity_commit_check :
    (∀ (env : SaveEnv) (ehr : List FinalRecord) (pc : PreparedCase),
      generate_integrity_hash pc.payload.clinical_data ≠ pc.integrity_hash →
      (confirm_and_save env ehr pc true).1.status = "security_error" ∧
      (confirm_and_save env ehr pc true).2 = ehr) ∧
    (∀ (f₁ f₂ : List (String × Json)), f₁.Perm f₂ →
      List.Pairwise (fun p q : String × Json => p.1 ≠ q.1) f₁ →
      generate_integrity_hash (Json.obj f₁) = generate_integrity_hash (Json.obj f₂)) := by
  constructor
  · intro env ehr pc h
    unfold WorkflowAutomationAgent.confirm_and_save
    simp [h]
  · intro f₁ f₂ hperm hnd
    unfold WorkflowAutomationAgent.generate_integrity_hash dumps
    rw [show recursionLimit = 999 + 1 from rfl, dumpsF_obj, dumpsF_obj,
        sortFields_eq_of_perm f₁ f₂ hperm hnd]

open WorkflowAutomationAgent in
/-- Witness for C9: a tampered hash is rejected with nothing written, and
reordering the items of a two-key dict does not change its fingerprint. -/
theorem integrity_commit_check_witness :
    generate_integrity_hash
        (⟨"pending_consent", "Clinical case ready for EHR upload.",
          ⟨Json.null, Json.obj []⟩, "tampered"⟩ : PreparedCase).payload.clinical_data ≠
      (⟨"pending_consent", "Clinical case ready for EHR upload.",
        ⟨Json.null, Json.obj []⟩, "tampered"⟩ : PreparedCase).integrity_hash ∧
    (confirm_and_save ⟨"ABCD1234", none⟩ []
        ⟨"pending_consent", "Clinical case ready for EHR upload.",
         ⟨Json.null, Json.obj []⟩, "tampered"⟩ true).1.status = "security_error" ∧
    (confirm_and_save ⟨"ABCD1234", none⟩ []
        ⟨"pending_consent", "Clinical case ready for EHR upload.",
         ⟨Json.null, Json.obj []⟩, "tampered"⟩ true).2 = [] ∧
    ([("b", Json.null), ("a", Json.bool true)] : List (String × Json)).Perm
        [("a", Json.bool true), ("b", Json.null)] ∧
    generate_integrity_hash (Json.obj [("b", Json.null), ("a", Json.bool true)]) =
      generate_integrity_hash (Json.obj [("a", Json.bool true), ("b", Json.null)]) :=
  ⟨by decide,
   (integrity_commit_check.1 ⟨"ABCD1234", none⟩ []
     ⟨"pending_consent", "Clinical case ready for EHR upload.",
      ⟨Json.null, Json.obj []⟩, "tampered"⟩ (by decide)).1,
   (integrity_commit_check.1 ⟨"ABCD1234", none⟩ []
     ⟨"pending_consent", "Clinical case ready for EHR upload.",
      ⟨Json.null, Json.obj []⟩, "tampered"⟩ (by decide)).2,
   List.Perm.swap ("a", Json.bool true) ("b", Json.null) [],
   integrity_commit_check.2 [("b", Json.null), ("a", Json.bool true)]
     [("a", Json.bool true), ("b", Json.null)]
     (List.Perm.swap ("a", Json.bool true) ("b", Json.null) [])
     (by simp)⟩
